import Mathlib

/-!
Verification development for the PathSense wearable obstacle-detection system.

Shallow embedding of the core pipeline of the source tree:
  `src/config.py`             -- configuration constants
  `src/winter_optimization.py`-- temperature compensation and snow-particle filter
  `src/ground_detector.py`    -- ground calibration and hazard classification
  `src/haptic_controller.py`  -- sensor-to-motor mapping and alert sessions
  `src/main.py`               -- the per-tick detection pipeline

Python floats are modelled as exact rationals; `round(x, 2)` is modelled as
round-half-to-even at two decimal places, matching Python's rounding mode.
Python dicts are modelled as insertion-ordered association lists.
-/

/-! ### Generic association-list helpers (Python dict operations) -/

/-- Lookup in an insertion-ordered association list (Python `d.get(k)` / `d[k]`). -/
def lookupA {α : Type} [DecidableEq α] {β : Type} : List (α × β) → α → Option β
  | [], _ => none
  | (k0, v) :: rest, k => if k0 = k then some v else lookupA rest k

/-- Assignment `d[k] = v` on an insertion-ordered association list: overwrites in
place when the key exists (preserving its position), otherwise appends. -/
def setAssoc {α : Type} [DecidableEq α] {β : Type} : List (α × β) → α → β → List (α × β)
  | [], k, v => [(k, v)]
  | (k0, v0) :: rest, k, v =>
      if k0 = k then (k, v) :: rest else (k0, v0) :: setAssoc rest k v

/-- Python slice `l[-n:]`: the last `n` elements (the whole list when shorter). -/
def takeLastN {α : Type} (l : List α) (n : Nat) : List α :=
  l.drop (l.length - n)

/-- Python `max` over a nonempty list (0 on the empty list, unused there). -/
def listMax : List ℚ → ℚ
  | [] => 0
  | x :: xs => xs.foldl max x

/-- Python `min` over a nonempty list (0 on the empty list, unused there). -/
def listMin : List ℚ → ℚ
  | [] => 0
  | x :: xs => xs.foldl min x

/-- Python `l[-1]`, the last element (default 0 on the empty list, unused there). -/
def pyLast (l : List ℚ) : ℚ := l.getLastD 0

/-! ### Configuration constants (`src/config.py`) -/

def DANGER_ZONE : ℚ := 0.5
def WARNING_ZONE : ℚ := 1.5
def ALERT_ZONE : ℚ := 3.0
def GROUND_CALIBRATION_SAMPLES : Nat := 50
def POTHOLE_THRESHOLD : ℚ := 0.15
def CURB_THRESHOLD : ℚ := 0.10
def MAJOR_DROP_THRESHOLD : ℚ := 0.30
def DEFAULT_TEMPERATURE : ℚ := 0.0

/-- Keys of `Config.HAPTIC_MOTORS` (the GPIO pin values are irrelevant here). -/
def HAPTIC_MOTOR_NAMES : List String :=
  ["front_upper", "front_center", "front_lower", "left", "right"]

/-! ### Rounding (Python `round(x, 2)`) -/

/-- Round-half-to-even to the nearest integer, Python's `round` tie rule. -/
def roundHalfEven (x : ℚ) : ℤ :=
  let n := ⌊x⌋
  let frac := x - n
  if frac < 1/2 then n
  else if 1/2 < frac then n + 1
  else if n % 2 = 0 then n else n + 1

/-- Python `round(x, 2)`. -/
def round2 (x : ℚ) : ℚ := (roundHalfEven (x * 100) : ℚ) / 100

/-! ### Winter optimizer (`src/winter_optimization.py`) -/

/-- `WinterOptimizer.adjust_for_temperature` (lines 28-65).  `enabled` is
`config.COLD_TEMP_COMPENSATION`; the reading is `none` for "no reading". -/
def adjust_for_temperature (enabled : Bool) (temperature : ℚ)
    (distance_reading : Option ℚ) : Option ℚ :=
  if ¬ enabled then distance_reading
  else
    match distance_reading with
    | none => none
    | some r =>
        let standard_speed : ℚ := 343.0
        let actual_speed : ℚ := 331.3 + 0.606 * temperature
        let factor := actual_speed / standard_speed
        some (round2 (r * factor))

/-- `WinterOptimizer._calculate_variance` (lines 151-172): population variance.
(The source drops `None` entries first; histories built by `main.py` lines
107-114 only ever contain numbers, so the model takes `List ℚ` directly.) -/
def calculate_variance (readings : List ℚ) : ℚ :=
  if readings.length < 2 then 0
  else
    let mean := readings.sum / (readings.length : ℚ)
    ((readings.map (fun x => (x - mean) ^ 2)).sum) / (readings.length : ℚ)

/-- `WinterOptimizer._is_consistent_obstacle` (lines 130-149). -/
def is_consistent_obstacle (history : List ℚ) (current : ℚ) : Bool :=
  if history.length < 3 then false
  else
    let recent := takeLastN history 3 ++ [current]
    decide (listMax recent - listMin recent < 0.2)

/-- Body of the per-sensor loop of `WinterOptimizer.filter_snow_particles`
(lines 93-126): the value stored into `filtered[sensor_name]`. -/
def snow_filter_body (history_buffer : List (String × List ℚ))
    (sensor_name : String) (current : Option ℚ) : Option ℚ :=
  match current with
  | none => none
  | some c =>
      let sensor_history := (lookupA history_buffer sensor_name).getD []
      if sensor_history.length < 3 then some c
      else
        let variance := calculate_variance sensor_history
        let rate_of_change :=
          if 2 ≤ sensor_history.length
          then |pyLast sensor_history - pyLast sensor_history.dropLast|
          else 0
        if variance > 0.4 ∨ rate_of_change > 0.5 then
          if is_consistent_obstacle sensor_history c then some c else none
        else some c

/-- `WinterOptimizer.filter_snow_particles` (lines 67-128).  `enabled` is
`self.snow_filter_enabled`; readings and history are Python dicts. -/
def filter_snow_particles (enabled : Bool)
    (sensor_readings : List (String × Option ℚ))
    (history_buffer : List (String × List ℚ)) : List (String × Option ℚ) :=
  if ¬ enabled then sensor_readings
  else sensor_readings.map (fun p => (p.1, snow_filter_body history_buffer p.1 p.2))

/-! ### Ground detector (`src/ground_detector.py`) -/

/-- State of `GroundDetector`: accumulated calibration samples, the baseline
distance and the calibrated flag. -/
structure GDState where
  calibration_readings : List ℚ
  baseline_distance : Option ℚ
  calibrated : Bool
deriving DecidableEq

def GDState.init : GDState := ⟨[], none, false⟩

/-- `sorted(...)` over rationals. -/
def sortQ (l : List ℚ) : List ℚ := List.insertionSort (fun a b => a ≤ b) l

/-- `GroundDetector.calibrate` (lines 19-45), with the dict access of lines
27-30 reduced to the optional ground reading.  Python `sorted[t:-t]` is
`drop t` then `take (len - 2*t)`. -/
def calibrate (st : GDState) (ground_reading : Option ℚ) : GDState :=
  match ground_reading with
  | none => st
  | some r =>
      let rs := st.calibration_readings ++ [r]
      if GROUND_CALIBRATION_SAMPLES ≤ rs.length then
        let sorted_readings := sortQ rs
        let trim_count := sorted_readings.length / 10
        let middle_readings :=
          if 0 < trim_count
          then (sorted_readings.drop trim_count).take
                 (sorted_readings.length - 2 * trim_count)
          else sorted_readings
        { calibration_readings := rs,
          baseline_distance := some (middle_readings.sum / (middle_readings.length : ℚ)),
          calibrated := true }
      else { st with calibration_readings := rs }

/-- Feed a list of present ground readings through `calibrate` from the
initial state (the calibration phase of `main.py` lines 93-99). -/
def runCalibration (samples : List ℚ) : GDState :=
  samples.foldl (fun st r => calibrate st (some r)) GDState.init

/-- Hazard dicts returned by `GroundDetector.detect_hazard`, as a tagged
variant: payload field (`depth`/`height`/`change`), severity, description. -/
inductive Hazard
  | drop_off (depth : ℚ) (severity : String) (description : String)
  | raised_surface (height : ℚ) (severity : String) (description : String)
  | slope (change : ℚ) (severity : String) (description : String)
deriving DecidableEq

/-- The `'severity'` field of a hazard dict. -/
def Hazard.severity : Hazard → String
  | .drop_off _ s _ => s
  | .raised_surface _ s _ => s
  | .slope _ s _ => s

/-- `GroundDetector._classify_drop` (lines 92-111). -/
def classify_drop (depth : ℚ) : String :=
  if depth < 0.15 then "Small depression"
  else if depth < 0.20 then "Pothole detected"
  else if depth < 0.30 then "Curb or step down"
  else if depth < 0.50 then "Large drop-off"
  else "Stairs or major drop - DANGER"

/-- `GroundDetector._classify_rise` (lines 113-130). -/
def classify_rise (height : ℚ) : String :=
  if height < 0.10 then "Small bump or crack"
  else if height < 0.15 then "Curb detected"
  else if height < 0.20 then "Step up ahead"
  else "Stairs or large obstacle"

/-- `GroundDetector.detect_hazard` (lines 47-90).  When calibrated the
baseline is always set, so `getD 0` is never the value actually used. -/
def detect_hazard (st : GDState) (current_distance : Option ℚ) : Option Hazard :=
  if ¬ st.calibrated then none
  else
    match current_distance with
    | none => none
    | some c =>
        let deviation := c - st.baseline_distance.getD 0
        if deviation > POTHOLE_THRESHOLD then
          let severity :=
            if deviation > MAJOR_DROP_THRESHOLD then "critical" else "warning"
          some (.drop_off deviation severity (classify_drop deviation))
        else if deviation < -CURB_THRESHOLD then
          some (.raised_surface |deviation| "warning" (classify_rise |deviation|))
        else if |deviation| > 0.05 then
          some (.slope deviation "info" "Sloped surface detected")
        else none

/-! ### Haptic controller, session-registry view (`src/haptic_controller.py`)

This view models the bookkeeping that `alert`/`stop` perform on
`active_alerts`: which channel holds which (intensity, pattern) session and
whether its control dict has been flagged to stop.  Each `alert` call creates
a fresh control dict and vibration thread; `sid` models that object identity
(the running counter is the number of sessions created so far). -/

/-- One control entry of `active_alerts`: the session parameters, the identity
of the control dict created for it, and its `'stop'` flag. -/
structure SlotInfo where
  intensity : String
  pat : String
  sid : Nat
  stopFlag : Bool
deriving DecidableEq

/-- Registry of `active_alerts` plus the count of sessions created so far. -/
structure HapticReg where
  slots : List (String × SlotInfo)
  counter : Nat
deriving DecidableEq

/-- `HapticController._sensor_to_motor` (lines 85-95): fixed mapping with
default `'front_center'` for unknown keys. -/
def sensor_to_motor (sensor_name : String) : String :=
  let mapping : List (String × String) :=
    [("front_high", "front_upper"),
     ("front_center", "front_center"),
     ("front_low", "front_lower"),
     ("left_side", "left"),
     ("right_side", "right"),
     ("ground_sensor", "front_lower")]
  (lookupA mapping sensor_name).getD "front_center"

/-- Registry effect of `HapticController.alert` (lines 33-62): map the sensor
to its motor, drop the call when the motor is unknown, otherwise install a
fresh session (the superseded control dict, if any, is flagged and replaced). -/
def alertReg (reg : HapticReg) (sensor_name intensity pat : String) : HapticReg :=
  let motor_name := sensor_to_motor sensor_name
  if motor_name ∈ HAPTIC_MOTOR_NAMES then
    { slots := setAssoc reg.slots motor_name
        { intensity := intensity, pat := pat, sid := reg.counter, stopFlag := false },
      counter := reg.counter + 1 }
  else reg

/-- Registry effect of `HapticController.stop` (lines 64-70): flag the
channel's current control dict to stop (the entry itself stays registered). -/
def stopReg (reg : HapticReg) (sensor_name : String) : HapticReg :=
  let motor_name := sensor_to_motor sensor_name
  match lookupA reg.slots motor_name with
  | some info =>
      { reg with slots := setAssoc reg.slots motor_name { info with stopFlag := true } }
  | none => reg

/-! ### Detection pipeline (`src/main.py`) -/

/-- `PathSense._process_obstacle` (lines 137-167): temperature-compensate,
then classify against the three zone thresholds.  `coldEnabled` is
`config.COLD_TEMP_COMPENSATION`.  The compensated reading of a present
reading is always present, so `getD 0` is never the value actually used. -/
def process_obstacle (coldEnabled : Bool) (temperature : ℚ)
    (sensor_name : String) (distance : ℚ) (reg : HapticReg) : HapticReg :=
  let d := (adjust_for_temperature coldEnabled temperature (some distance)).getD 0
  if d < DANGER_ZONE then alertReg reg sensor_name "high" "rapid"
  else if d < WARNING_ZONE then alertReg reg sensor_name "medium" "pulse"
  else if d < ALERT_ZONE then alertReg reg sensor_name "low" "intermittent"
  else stopReg reg sensor_name

/-- `PathSense._process_ground_hazard` (lines 169-192): all three severity
branches call `alert` with sensor name `'front_lower'`. -/
def process_ground_hazard (hazard : Hazard) (reg : HapticReg) : HapticReg :=
  if hazard.severity = "critical" then alertReg reg "front_lower" "high" "rapid"
  else if hazard.severity = "warning" then alertReg reg "front_lower" "medium" "pulse"
  else alertReg reg "front_lower" "low" "intermittent"

/-- History update of `_detection_loop` (lines 107-114): append each present
reading and keep the last 5 (`history[-5:]`). -/
def updateHistory (hist : List (String × List ℚ))
    (data : List (String × Option ℚ)) : List (String × List ℚ) :=
  data.foldl
    (fun h p =>
      match p with
      | (_, none) => h
      | (s, some v) => setAssoc h s (takeLastN (((lookupA h s).getD []) ++ [v]) 5))
    hist

/-- Upper-body processing loop of `_detection_loop` (lines 116-119): every
non-ground sensor with a present reading goes through `_process_obstacle`;
absent readings are skipped. -/
def processObstacles (coldEnabled : Bool) (temperature : ℚ)
    (data : List (String × Option ℚ)) (reg : HapticReg) : HapticReg :=
  data.foldl
    (fun r p =>
      match p with
      | (s, some v) =>
          if s ≠ "ground_sensor" then process_obstacle coldEnabled temperature s v r else r
      | (_, none) => r)
    reg

/-- Python truthiness of `sensor_data['ground_sensor']` (lines 95 and 122):
present and nonzero. -/
def truthy (r : Option ℚ) : Bool :=
  match r with
  | some v => decide (v ≠ 0)
  | none => false

/-- Per-tick state owned by `_detection_loop`. -/
structure TickState where
  sensor_history : List (String × List ℚ)
  haptic : HapticReg
  ground : GDState
  calibration_count : Nat
deriving DecidableEq

/-- One iteration of `_detection_loop` (lines 88-128), logging and sleeping
omitted: ground calibration on the raw data (lines 93-99), snow filtering
(lines 101-105), history update (lines 107-114), upper-body obstacle
processing (lines 116-119), ground-hazard processing (lines 121-125). -/
def detection_tick (snowEnabled coldEnabled : Bool) (temperature : ℚ)
    (data : List (String × Option ℚ)) (st : TickState) : TickState :=
  let rawGround := (lookupA data "ground_sensor").getD none
  let groundCal :=
    if ¬ st.ground.calibrated ∧ st.calibration_count < 50 ∧ truthy rawGround
    then (calibrate st.ground rawGround, st.calibration_count + 1)
    else (st.ground, st.calibration_count)
  let data1 :=
    if snowEnabled then filter_snow_particles true data st.sensor_history else data
  let hist1 := updateHistory st.sensor_history data1
  let reg1 := processObstacles coldEnabled temperature data1 st.haptic
  let filteredGround := (lookupA data1 "ground_sensor").getD none
  let reg2 :=
    if truthy filteredGround then
      match detect_hazard groundCal.1 filteredGround with
      | some hz => process_ground_hazard hz reg1
      | none => reg1
    else reg1
  ⟨hist1, reg2, groundCal.1, groundCal.2⟩

/-! ### Haptic controller, timed session view (`src/haptic_controller.py`)

A discrete-event model of the vibration threads, with time in hundredths of a
second (`'rapid'` = 10 on / 10 off, `'pulse'` = 30/30, `'intermittent'` =
20/80, and the `time.sleep(0.05)` of `alert` = 5).  Each session thread runs
`_vibrate_pattern` (lines 97-136) and observes its `control['stop']` flag only
at the two checkpoints of its loop; the main thread's `alert` call is the pair
of events "set the stop flag of the registered control" (lines 49-51) and,
0.05 s later, "start the new thread and register its control" (lines 54-62). -/

/-- `(on_time, off_time)` table of `_vibrate_pattern` (lines 108-121),
including the `(0.3, 0.3)` default. -/
def patternTimes (pat : String) : Nat × Nat :=
  if pat = "rapid" then (10, 10)
  else if pat = "pulse" then (30, 30)
  else if pat = "intermittent" then (20, 80)
  else (30, 30)

/-- Position of a vibration thread inside `_vibrate_pattern`: about to test
the `while` condition (line 125), sleeping after `_motor_on` (line 127),
sleeping after `_motor_off` (line 133), or terminated (after line 136). -/
inductive VibPhase
  | loopTop
  | sleepingOn (wake : Nat)
  | sleepingOff (wake : Nat)
  | finished
deriving DecidableEq

/-- One vibration thread together with its control dict's `'stop'` flag. -/
structure SessionState where
  motor : String
  intensity : String
  pat : String
  on_time : Nat
  off_time : Nat
  stopFlag : Bool
  phase : VibPhase
deriving DecidableEq

/-- The two observable actions of an `alert` call by the main thread. -/
inductive MainEv
  | setStop (motor : String)
  | spawn (motor intensity pat : String)
deriving DecidableEq

/-- Discrete-event system state: current time, all threads ever spawned (index
= spawn order), `active_alerts` (motor to index of its registered control),
`motor_states`, and the main thread's scheduled actions. -/
structure HSim where
  now : Nat
  sessions : List SessionState
  active_alerts : List (String × Nat)
  motor_states : List (String × Bool)
  pending : List (Nat × MainEv)
deriving DecidableEq

/-- Thread at the `while not control['stop']` test (line 125): exit the loop
and force the motor off (line 136), or `_motor_on` and sleep `on_time`
(lines 126-127). -/
def runLoopTop (s : HSim) (i : Nat) (ss : SessionState) : HSim :=
  if ss.stopFlag then
    { s with sessions := s.sessions.set i { ss with phase := .finished },
             motor_states := setAssoc s.motor_states ss.motor false }
  else
    { s with sessions := s.sessions.set i { ss with phase := .sleepingOn (s.now + ss.on_time) },
             motor_states := setAssoc s.motor_states ss.motor true }

/-- Thread waking from a sleep: after the on-sleep it checks `stop` (line
129; on break the final `_motor_off` of line 136 runs), else `_motor_off` and
sleep `off_time` (lines 132-133); after the off-sleep it returns to the
`while` test. -/
def wakeSession (s : HSim) (i : Nat) (ss : SessionState) : HSim :=
  match ss.phase with
  | .sleepingOn _ =>
      if ss.stopFlag then
        { s with sessions := s.sessions.set i { ss with phase := .finished },
                 motor_states := setAssoc s.motor_states ss.motor false }
      else
        { s with sessions := s.sessions.set i { ss with phase := .sleepingOff (s.now + ss.off_time) },
                 motor_states := setAssoc s.motor_states ss.motor false }
  | .sleepingOff _ =>
      { s with sessions := s.sessions.set i { ss with phase := .loopTop } }
  | _ => s

/-- Main-thread action: `setStop` flags the control currently registered for
the motor (lines 49-50); `spawn` starts a new thread and registers its
control (lines 54-62). -/
def applyMain (s : HSim) (ev : MainEv) : HSim :=
  match ev with
  | .setStop m =>
      match lookupA s.active_alerts m with
      | some i =>
          match s.sessions[i]? with
          | some ss => { s with sessions := s.sessions.set i { ss with stopFlag := true } }
          | none => s
      | none => s
  | .spawn m intens pat =>
      let t := patternTimes pat
      { s with
        sessions := s.sessions ++
          [{ motor := m, intensity := intens, pat := pat,
             on_time := t.1, off_time := t.2, stopFlag := false, phase := .loopTop }],
        active_alerts := setAssoc s.active_alerts m s.sessions.length }

/-- Wake time of a sleeping thread. -/
def wakeTime : VibPhase → Option Nat
  | .sleepingOn w => some w
  | .sleepingOff w => some w
  | _ => none

/-- All future event times: thread wake-ups and scheduled main-thread actions. -/
def nextTimes (s : HSim) : List Nat :=
  (s.sessions.filterMap (fun ss => wakeTime ss.phase)) ++ s.pending.map (fun p => p.1)

/-- Minimum of a list of times. -/
def minTime : List Nat → Option Nat
  | [] => none
  | t :: ts =>
      match minTime ts with
      | none => some t
      | some u => some (min t u)

/-- Remove the first pending action due at or before `now`. -/
def popPending (now : Nat) : List (Nat × MainEv) → Option (MainEv × List (Nat × MainEv))
  | [] => none
  | (t, ev) :: rest =>
      if t ≤ now then some (ev, rest)
      else
        match popPending now rest with
        | some (e, l) => some (e, (t, ev) :: l)
        | none => none

/-- One scheduler step, never advancing time beyond `T`: run a thread at its
`while` test, else fire a due main-thread action, else wake a due sleeper,
else advance time to the next event time.  At most one action per step; the
state is a fixpoint once nothing is due at or before `T`. -/
def stepB (T : Nat) (s : HSim) : HSim :=
  match s.sessions.findIdx? (fun ss => decide (ss.phase = .loopTop)) with
  | some i =>
      match s.sessions[i]? with
      | some ss => runLoopTop s i ss
      | none => s
  | none =>
      match popPending s.now s.pending with
      | some (ev, rest) => applyMain { s with pending := rest } ev
      | none =>
          match s.sessions.findIdx?
              (fun ss =>
                match wakeTime ss.phase with
                | some w => decide (w ≤ s.now)
                | none => false) with
          | some i =>
              match s.sessions[i]? with
              | some ss => wakeSession s i ss
              | none => s
          | none =>
              match minTime (nextTimes s) with
              | some t => if s.now < t ∧ t ≤ T then { s with now := t } else s
              | none => s

/-- Run the scheduler `fuel` steps with time bound `T`. -/
def runUntil (T : Nat) : Nat → HSim → HSim
  | 0, s => s
  | fuel + 1, s => runUntil T fuel (stepB T s)

/-- Threads of a motor that are still alive (thread spawned, not terminated). -/
def liveSessions (s : HSim) (m : String) : Nat :=
  (s.sessions.filter
    (fun ss => decide (ss.motor = m) && decide (ss.phase ≠ .finished))).length

/-- Execution of `alert('front_center', 'medium', 'pulse')` at time 0 against
an empty controller (no registered control, so no stop/pause: lines 48-51 are
skipped and the thread is spawned immediately), followed by a second identical
`alert` call at time `a`: its `setStop` at `a` and, after the `time.sleep(0.05)`
of line 51, its `spawn` at `a + 5`. -/
def handoverSim (a : Nat) : HSim :=
  { now := 0,
    sessions := [],
    active_alerts := [],
    motor_states := HAPTIC_MOTOR_NAMES.map (fun m => (m, false)),
    pending := [(0, .spawn (sensor_to_motor "front_center") "medium" "pulse"),
                (a, .setStop (sensor_to_motor "front_center")),
                (a + 5, .spawn (sensor_to_motor "front_center") "medium" "pulse")] }

/-! ### Specification-side definitions

These restate, in the spec's own words, the computations that the claims
describe; the claim theorems compare them with the code-side definitions
above. -/

/-- Per-sensor noise filter as the spec states it: pass when absent or short
history; when population variance (stated as the second-moment formula)
exceeds 0.4 or the last-step change exceeds 0.5, accept exactly when the 3
most recent history entries plus the current reading all lie within a 0.20 m
band, else suppress; otherwise pass. -/
def specFilterOne (history : List ℚ) (current : Option ℚ) : Option ℚ :=
  match current with
  | none => none
  | some c =>
      if history.length < 3 then some c
      else
        let n : ℚ := history.length
        let specVar := (history.map (fun x => x ^ 2)).sum / n - (history.sum / n) ^ 2
        let roc := |pyLast history - pyLast history.dropLast|
        if specVar > 0.4 ∨ roc > 0.5 then
          if ∀ x ∈ takeLastN history 3 ++ [c], ∀ y ∈ takeLastN history 3 ++ [c], x - y < 0.2
          then some c
          else none
        else some c

/-- Trimmed middle of the samples as the spec states it: sort, remove
`floor(count/10)` from each end (no trimming when that count is 0). -/
def trimmedMiddle (samples : List ℚ) : List ℚ :=
  let s := sortQ samples
  let t := s.length / 10
  if 0 < t then (s.drop t).take (s.length - 2 * t) else s

/-- Baseline as the spec states it: arithmetic mean of the trimmed middle. -/
def trimmedMeanSpec (samples : List ℚ) : ℚ :=
  (trimmedMiddle samples).sum / ((trimmedMiddle samples).length : ℚ)

/-- View of a hazard as the claim states it: kind tag, severity, and the
payload scalar (depth / height / change). -/
def hazardView : Option Hazard → Option (String × String × ℚ)
  | none => none
  | some (.drop_off d s _) => some ("drop_off", s, d)
  | some (.raised_surface h s _) => some ("raised_surface", s, h)
  | some (.slope c s _) => some ("slope", s, c)

/-- Ground-hazard classification as the claim states it: `None` when
uncalibrated or absent; `deviation > 0.30` critical drop-off; `0.15 <
deviation ≤ 0.30` warning drop-off; `deviation < -0.10` warning raised
surface of height `|deviation|`; `0.05 < |deviation|` otherwise info slope;
else `None`. -/
def specClassify (calibrated : Bool) (baseline : Option ℚ)
    (current : Option ℚ) : Option (String × String × ℚ) :=
  if ¬ calibrated then none
  else
    match current with
    | none => none
    | some c =>
        let dev := c - baseline.getD 0
        if dev > 0.30 then some ("drop_off", "critical", dev)
        else if 0.15 < dev then some ("drop_off", "warning", dev)
        else if dev < -0.10 then some ("raised_surface", "warning", |dev|)
        else if 0.05 < |dev| then some ("slope", "info", dev)
        else none

/-- An empty haptic registry. -/
def reg0 : HapticReg := ⟨[], 0⟩

/-- A registry with a running high/rapid session on the center channel. -/
def regActive : HapticReg :=
  ⟨[("front_center", ⟨"high", "rapid", 0, false⟩)], 1⟩

/-- Tick state with empty history, the active center session, uncalibrated
ground detector. -/
def tickActive : TickState := ⟨[], regActive, GDState.init, 0⟩

/-- Tick state with everything empty. -/
def tick0 : TickState := ⟨[], reg0, GDState.init, 0⟩

/-- The 50 uniformly spread samples 0.01, 0.02, ..., 0.50. -/
def uniformSamples : List ℚ := (List.range 50).map (fun k => ((k : ℚ) + 1) / 100)

/-- `uniformSamples`, written out. -/
def uLit : List ℚ :=
  [1/100, 2/100, 3/100, 4/100, 5/100, 6/100, 7/100, 8/100, 9/100, 10/100,
   11/100, 12/100, 13/100, 14/100, 15/100, 16/100, 17/100, 18/100, 19/100, 20/100,
   21/100, 22/100, 23/100, 24/100, 25/100, 26/100, 27/100, 28/100, 29/100, 30/100,
   31/100, 32/100, 33/100, 34/100, 35/100, 36/100, 37/100, 38/100, 39/100, 40/100,
   41/100, 42/100, 43/100, 44/100, 45/100, 46/100, 47/100, 48/100, 49/100, 50/100]

/-- The middle 40 of `uniformSamples`: 0.06 up to 0.45. -/
def mLit : List ℚ :=
  [6/100, 7/100, 8/100, 9/100, 10/100,
   11/100, 12/100, 13/100, 14/100, 15/100, 16/100, 17/100, 18/100, 19/100, 20/100,
   21/100, 22/100, 23/100, 24/100, 25/100, 26/100, 27/100, 28/100, 29/100, 30/100,
   31/100, 32/100, 33/100, 34/100, 35/100, 36/100, 37/100, 38/100, 39/100, 40/100,
   41/100, 42/100, 43/100, 44/100, 45/100]

/-! ## Helper lemmas -/

theorem lookupA_setAssoc_self {α : Type} [DecidableEq α] {β : Type}
    (l : List (α × β)) (k : α) (v : β) : lookupA (setAssoc l k v) k = some v := by
  induction l with
  | nil => simp [setAssoc, lookupA]
  | cons p rest ih =>
      obtain ⟨k0, v0⟩ := p
      by_cases hk : k0 = k
      · simp [setAssoc, hk, lookupA]
      · simp [setAssoc, hk, lookupA, ih]

theorem lookupA_setAssoc_ne {α : Type} [DecidableEq α] {β : Type}
    (l : List (α × β)) (k k' : α) (v : β) (h : k ≠ k') :
    lookupA (setAssoc l k v) k' = lookupA l k' := by
  induction l with
  | nil => simp [setAssoc, lookupA, h]
  | cons p rest ih =>
      obtain ⟨k0, v0⟩ := p
      by_cases hk : k0 = k
      · subst hk
        simp [setAssoc, lookupA, h]
      · simp [setAssoc, hk, lookupA, ih]

theorem roundHalfEven_up (x : ℚ) (n : ℤ) (h1 : (n : ℚ) ≤ x) (h2 : x < n + 1)
    (h3 : 1/2 < x - n) : roundHalfEven x = n + 1 := by
  have hf : ⌊x⌋ = n := by
    rw [Int.floor_eq_iff]
    exact ⟨h1, by exact_mod_cast h2⟩
  unfold roundHalfEven
  rw [hf, if_neg (by linarith), if_pos h3]

theorem roundHalfEven_down (x : ℚ) (n : ℤ) (h1 : (n : ℚ) ≤ x) (h2 : x < n + 1)
    (h3 : x - n < 1/2) : roundHalfEven x = n := by
  have hf : ⌊x⌋ = n := by
    rw [Int.floor_eq_iff]
    exact ⟨h1, by exact_mod_cast h2⟩
  unfold roundHalfEven
  rw [hf, if_pos h3]

theorem adjust_eval (t r : ℚ) (n : ℤ)
    (h : roundHalfEven (r * ((331.3 + 0.606 * t) / 343.0) * 100) = n) :
    adjust_for_temperature true t (some r) = some ((n : ℚ) / 100) := by
  simp [adjust_for_temperature, round2, h]

theorem adjust_one_eval : adjust_for_temperature true 0 (some 1) = some (97/100) := by
  have h : roundHalfEven ((1:ℚ) * ((331.3 + 0.606 * 0) / 343.0) * 100) = 97 := by
    have := roundHalfEven_up ((1:ℚ) * ((331.3 + 0.606 * 0) / 343.0) * 100) 96
      (by norm_num) (by norm_num) (by norm_num)
    simpa using this
  simpa using adjust_eval 0 1 97 h

theorem adjust_35_eval : adjust_for_temperature true 0 (some (7/2)) = some (169/50) := by
  have h : roundHalfEven ((7/2 : ℚ) * ((331.3 + 0.606 * 0) / 343.0) * 100) = 338 := by
    have := roundHalfEven_down ((7/2 : ℚ) * ((331.3 + 0.606 * 0) / 343.0) * 100) 338
      (by norm_num) (by norm_num) (by norm_num)
    simpa using this
  rw [adjust_eval 0 (7/2) 338 h]
  simp only [Option.some.injEq]
  norm_num

theorem adjust_03_eval : adjust_for_temperature true 0 (some (3/10)) = some (29/100) := by
  have h : roundHalfEven ((3/10 : ℚ) * ((331.3 + 0.606 * 0) / 343.0) * 100) = 29 := by
    have := roundHalfEven_up ((3/10 : ℚ) * ((331.3 + 0.606 * 0) / 343.0) * 100) 28
      (by norm_num) (by norm_num) (by norm_num)
    simpa using this
  simpa using adjust_eval 0 (3/10) 29 h

/-- A tick whose only entry is an absent reading changes nothing: the filter
passes the absence through, the history update skips it, the obstacle loop
skips it, and no ground processing fires. -/
theorem tick_skip_none (t : ℚ) (s : String) (st : TickState) :
    detection_tick true true t [(s, none)] st = st := by
  by_cases hs : s = "ground_sensor" <;>
    simp [detection_tick, lookupA, hs, truthy, filter_snow_particles,
      snow_filter_body, updateHistory, processObstacles]

/-! ## Claim theorems -/

/-- C1: the spec states that every ground hazard alert drives the lower
motor `'front_lower'`.  In the code, `_process_ground_hazard` passes the
*motor* name `'front_lower'` to `alert` as a *sensor* name; the
`_sensor_to_motor` table has no key `'front_lower'` and falls back to its
default `'front_center'`, so for every ground hazard (all three severities)
the session is installed on the center motor and the lower-motor channel is
never touched — contradicting the table's own `'ground_sensor':
'front_lower'` entry, whose comment says ground hazards use the lower motor. -/
theorem c1_ground_hazard_drives_center_motor :
    sensor_to_motor "front_lower" = "front_center" ∧
    (∀ (hz : Hazard) (reg : HapticReg),
        lookupA (process_ground_hazard hz reg).slots "front_lower" =
          lookupA reg.slots "front_lower" ∧
        lookupA (process_ground_hazard hz reg).slots "front_center" =
          some ⟨(if hz.severity = "critical" then "high"
                 else if hz.severity = "warning" then "medium" else "low"),
                (if hz.severity = "critical" then "rapid"
                 else if hz.severity = "warning" then "pulse" else "intermittent"),
                reg.counter, false⟩) := by
  refine ⟨rfl, ?_⟩
  intro hz reg
  by_cases h1 : hz.severity = "critical"
  · simp [process_ground_hazard, alertReg, sensor_to_motor, lookupA, HAPTIC_MOTOR_NAMES,
      h1, lookupA_setAssoc_self, lookupA_setAssoc_ne]
  · by_cases h2 : hz.severity = "warning" <;>
      simp [process_ground_hazard, alertReg, sensor_to_motor, lookupA, HAPTIC_MOTOR_NAMES,
        h1, h2, lookupA_setAssoc_self, lookupA_setAssoc_ne]

/-- C6: the signal conditioner returns the reading unchanged when
compensation is disabled or the reading is absent, and otherwise returns
`raw * ((331.3 + 0.606 * t) / 343.0)` rounded to 2 decimal places; it is a
pure function of its inputs with no other effect and no error case. -/
theorem c6_temperature_compensation :
    (∀ (t : ℚ) (r : Option ℚ), adjust_for_temperature false t r = r) ∧
    (∀ t : ℚ, adjust_for_temperature true t none = none) ∧
    (∀ (t x : ℚ), adjust_for_temperature true t (some x) =
        some (round2 (x * ((331.3 + 0.606 * t) / 343.0)))) := by
  refine ⟨?_, ?_, ?_⟩ <;> intros <;> simp [adjust_for_temperature]

/-- C9 counterexample: the history buffer stores the snow-filtered reading
*before* temperature compensation.  A tick with raw reading 1.0 (at the
default winter temperature 0 °C, compensation enabled) stores 1.0 in the
history, while the conditioned value of that reading is 0.97 — so the stored
entry is not the conditioned reading the claim requires. -/
theorem c9_history_stores_unconditioned :
    lookupA (detection_tick true true 0 [("front_center", some 1)] tick0).sensor_history
        "front_center" = some [1] ∧
    adjust_for_temperature true 0 (some 1) = some (97/100) ∧
    (1 : ℚ) ≠ 97/100 := by
  refine ⟨?_, adjust_one_eval, by norm_num⟩
  simp [detection_tick, tick0, lookupA, truthy, filter_snow_particles, snow_filter_body,
    updateHistory, takeLastN, setAssoc, GDState.init, reg0]

/-- C9 amended: the per-sensor history holds at most the last 5 readings in
insertion order with the oldest dropped on overflow, but its entries are the
snow-filtered *raw* readings — temperature compensation happens downstream in
obstacle processing and is never stored. -/
theorem c9_bounded_history :
    (∀ (h : List (String × List ℚ)) (s : String) (v : ℚ) (old : List ℚ),
        lookupA h s = some old →
        lookupA (updateHistory h [(s, some v)]) s = some (takeLastN (old ++ [v]) 5)) ∧
    (∀ (old : List ℚ) (v : ℚ), old.length < 5 → takeLastN (old ++ [v]) 5 = old ++ [v]) ∧
    (∀ (old : List ℚ) (v : ℚ), old.length = 5 → takeLastN (old ++ [v]) 5 = old.tail ++ [v]) ∧
    (∀ (old : List ℚ) (v : ℚ), old.length ≤ 5 → (takeLastN (old ++ [v]) 5).length ≤ 5) := by
  refine ⟨?_, ?_, ?_, ?_⟩
  · intro h s v old hold
    simp [updateHistory, hold, lookupA_setAssoc_self]
  · intro old v h
    have h0 : (old ++ [v]).length - 5 = 0 := by simp; omega
    rw [takeLastN, h0, List.drop_zero]
  · intro old v h
    have h1 : (old ++ [v]).length - 5 = 1 := by simp [h]
    rw [takeLastN, h1, List.drop_append_of_le_length (by omega)]
    simp [List.drop_one]
  · intro old v h
    simp [takeLastN]
    omega

/-- C9 amended, witness: a concrete two-element history plus a new reading. -/
theorem c9_bounded_history_witness :
    lookupA (updateHistory [("front_center", [2, 3])] [("front_center", some 4)])
        "front_center" = some (takeLastN ([2, 3] ++ [4]) 5) :=
  c9_bounded_history.1 [("front_center", [2, 3])] "front_center" 4 [2, 3] (by simp [lookupA])

set_option maxRecDepth 10000

/-- C2 counterexample: with a ('medium', 'pulse') session running on the
center channel (spawned at time 0, mid on-phase), an `alert` with the *same*
intensity and pattern at time 0.10 s is not a no-op: it sets the running
session's stop flag, and 0.05 s later spawns a second session whose pattern
restarts from the beginning of its on-phase (sleeping until 45, not 30); the
original session then terminates at its next wake-up.  `alert` (lines 48-62)
never compares the requested state with the running one. -/
theorem c2_same_alert_restarts :
    (runUntil 15 40 (handoverSim 10)).sessions.map
        (fun ss => (ss.intensity, ss.pat, ss.stopFlag, ss.phase)) =
      [("medium", "pulse", true, VibPhase.sleepingOn 30),
       ("medium", "pulse", false, VibPhase.sleepingOn 45)] ∧
    (runUntil 30 40 (handoverSim 10)).sessions.map (fun ss => ss.phase) =
      [VibPhase.finished, VibPhase.sleepingOn 45] := by
  decide

/-- C2 amended: issuing an alert with the same pattern and intensity as the
running session behaves like any other alert: whatever the timing of the
second call, it unconditionally flags the running session's control to stop
and spawns a fresh session whose pattern restarts from the beginning of its
on-phase. -/
theorem c2_alert_always_restarts : ∀ a : Nat, a < 25 →
    (runUntil (a + 5) 40 (handoverSim a)).sessions.map
        (fun ss => (ss.intensity, ss.pat, ss.stopFlag, ss.phase)) =
      [("medium", "pulse", true, VibPhase.sleepingOn 30),
       ("medium", "pulse", false, VibPhase.sleepingOn (a + 35))] := by
  decide

/-- C2 amended, witness at alert time 0.10 s. -/
theorem c2_alert_always_restarts_witness :
    (runUntil 15 40 (handoverSim 10)).sessions.map
        (fun ss => (ss.intensity, ss.pat, ss.stopFlag, ss.phase)) =
      [("medium", "pulse", true, VibPhase.sleepingOn 30),
       ("medium", "pulse", false, VibPhase.sleepingOn 45)] :=
  c2_alert_always_restarts 10 (by decide)

/-- C4 counterexample: 0.05 s after the superseding alert flagged the old
session, the new session has already activated while the old one is still
mid-sleep and alive — two live sessions on the same channel, with the
actuator on, so the prior session was not quiesced before the new pattern
activated. -/
theorem c4_two_live_sessions :
    liveSessions (runUntil 15 40 (handoverSim 10)) "front_center" = 2 ∧
    lookupA (runUntil 15 40 (handoverSim 10)).motor_states "front_center" = some true := by
  decide

/-- C4 amended: superseding an alert sets the prior session's stop flag and
waits a fixed 0.05 s before spawning the new session, without waiting for the
prior session to observe the flag; for every alert time within the prior
session's first on-sleep, the two sessions overlap (both live, actuator on)
while `active_alerts` registers only the new one, and the prior session
terminates only at its next wake-up — where its final motor-off fires in the
middle of the new session's on-phase. -/
theorem c4_handover_overlap : ∀ a : Nat, a < 25 →
    liveSessions (runUntil (a + 5) 40 (handoverSim a)) "front_center" = 2 ∧
    lookupA (runUntil (a + 5) 40 (handoverSim a)).motor_states "front_center" = some true ∧
    (runUntil (a + 5) 40 (handoverSim a)).active_alerts = [("front_center", 1)] ∧
    ((runUntil 30 40 (handoverSim a)).sessions[0]?).map SessionState.phase =
      some VibPhase.finished ∧
    ((runUntil 30 40 (handoverSim a)).sessions[1]?).map SessionState.phase =
      some (VibPhase.sleepingOn (a + 35)) ∧
    lookupA (runUntil 30 40 (handoverSim a)).motor_states "front_center" = some false := by
  decide

/-- C4 amended, witness at alert time 0.07 s. -/
theorem c4_handover_overlap_witness :
    liveSessions (runUntil 12 40 (handoverSim 7)) "front_center" = 2 ∧
    lookupA (runUntil 12 40 (handoverSim 7)).motor_states "front_center" = some true ∧
    (runUntil 12 40 (handoverSim 7)).active_alerts = [("front_center", 1)] ∧
    ((runUntil 30 40 (handoverSim 7)).sessions[0]?).map SessionState.phase =
      some VibPhase.finished ∧
    ((runUntil 30 40 (handoverSim 7)).sessions[1]?).map SessionState.phase =
      some (VibPhase.sleepingOn 42) ∧
    lookupA (runUntil 30 40 (handoverSim 7)).motor_states "front_center" = some false :=
  c4_handover_overlap 7 (by decide)

/-- C3 counterexample: with a high/rapid alert running on the center channel,
a tick whose center reading is absent leaves the whole state — including the
running alert — unchanged (the loop at `main.py` lines 117-119 skips `None`
readings entirely, so no stop is issued), whereas a Clear reading (3.5 m,
conditioned to 3.38 m ≥ 3.0) stops the channel's alert.  Absent readings are
therefore not handled like Clear readings. -/
theorem c3_absent_reading_not_stopped :
    detection_tick true true 0 [("front_center", none)] tickActive = tickActive ∧
    lookupA (detection_tick true true 0 [("front_center", some (7/2))] tickActive).haptic.slots
        "front_center" = some ⟨"high", "rapid", 0, true⟩ := by
  refine ⟨tick_skip_none 0 "front_center" tickActive, ?_⟩
  have hpo : process_obstacle true 0 "front_center" (7/2) regActive =
      stopReg regActive "front_center" := by
    simp only [process_obstacle, adjust_35_eval, Option.getD_some]
    norm_num [DANGER_ZONE, WARNING_ZONE, ALERT_ZONE]
  have htick : (detection_tick true true 0 [("front_center", some (7/2))] tickActive).haptic =
      stopReg regActive "front_center" := by
    simp [detection_tick, tickActive, lookupA, truthy, filter_snow_particles, snow_filter_body,
      updateHistory, processObstacles, hpo, GDState.init]
  rw [htick]
  simp [stopReg, sensor_to_motor, lookupA, regActive, setAssoc]

/-- C3 amended: for a present reading the zone thresholds hold as stated, on
the conditioned distance `c`: `c < 0.5` drives the high/rapid (Danger) alert,
`c < 1.5` the medium/pulse (Warning) alert, `c < 3.0` the low/intermittent
(Alert) alert, and `c ≥ 3.0` (Clear) stops the channel; but an absent reading
is skipped entirely — the tick issues neither an alert nor a stop and leaves
the state unchanged, so a running alert persists. -/
theorem c3_zones_amended : ∀ (t d : ℚ) (s : String) (reg : HapticReg) (st : TickState),
    detection_tick true true t [(s, none)] st = st ∧
    ((adjust_for_temperature true t (some d)).getD 0 < 0.5 →
      process_obstacle true t s d reg = alertReg reg s "high" "rapid") ∧
    (0.5 ≤ (adjust_for_temperature true t (some d)).getD 0 →
      (adjust_for_temperature true t (some d)).getD 0 < 1.5 →
      process_obstacle true t s d reg = alertReg reg s "medium" "pulse") ∧
    (1.5 ≤ (adjust_for_temperature true t (some d)).getD 0 →
      (adjust_for_temperature true t (some d)).getD 0 < 3.0 →
      process_obstacle true t s d reg = alertReg reg s "low" "intermittent") ∧
    (3.0 ≤ (adjust_for_temperature true t (some d)).getD 0 →
      process_obstacle true t s d reg = stopReg reg s) := by
  intro t d s reg st
  refine ⟨tick_skip_none t s st, ?_, ?_, ?_, ?_⟩
  · intro h1
    simp only [process_obstacle, DANGER_ZONE]
    rw [if_pos h1]
  · intro h1 h2
    simp only [process_obstacle, DANGER_ZONE, WARNING_ZONE]
    rw [if_neg (not_lt.mpr h1), if_pos h2]
  · intro h1 h2
    simp only [process_obstacle, DANGER_ZONE, WARNING_ZONE, ALERT_ZONE]
    rw [if_neg (not_lt.mpr (by linarith)), if_neg (not_lt.mpr h1), if_pos h2]
  · intro h1
    simp only [process_obstacle, DANGER_ZONE, WARNING_ZONE, ALERT_ZONE]
    rw [if_neg (not_lt.mpr (by linarith)), if_neg (not_lt.mpr (by linarith)),
        if_neg (not_lt.mpr h1)]

/-- C3 amended, witness: a 0.3 m reading (conditioned to 0.29 m) drives the
Danger alert. -/
theorem c3_zones_amended_witness :
    process_obstacle true 0 "front_center" (3/10) reg0 =
      alertReg reg0 "front_center" "high" "rapid" :=
  (c3_zones_amended 0 (3/10) "front_center" reg0 tick0).2.1
    (by rw [adjust_03_eval]; norm_num)

theorem init_le_foldl_max : ∀ (xs : List ℚ) (a : ℚ), a ≤ xs.foldl max a := by
  intro xs
  induction xs with
  | nil => intro a; simp
  | cons b t ih =>
      intro a
      simp only [List.foldl_cons]
      exact le_trans (le_max_left a b) (ih (max a b))

theorem mem_le_foldl_max : ∀ (xs : List ℚ) (a x : ℚ), x ∈ xs → x ≤ xs.foldl max a := by
  intro xs
  induction xs with
  | nil => intro a x hx; simp at hx
  | cons b t ih =>
      intro a x hx
      simp only [List.foldl_cons]
      rcases List.mem_cons.mp hx with rfl | hx
      · exact le_trans (le_max_right a x) (init_le_foldl_max t (max a x))
      · exact ih (max a b) x hx

theorem foldl_max_mem : ∀ (xs : List ℚ) (a : ℚ), xs.foldl max a ∈ a :: xs := by
  intro xs
  induction xs with
  | nil => intro a; simp
  | cons b t ih =>
      intro a
      simp only [List.foldl_cons]
      rcases List.mem_cons.mp (ih (max a b)) with h | h
      · rw [h]
        rcases max_choice a b with hm | hm <;> rw [hm]
        · exact List.mem_cons_self _ _
        · exact List.mem_cons_of_mem _ (List.mem_cons_self _ _)
      · exact List.mem_cons_of_mem _ (List.mem_cons_of_mem _ h)

theorem foldl_min_le_init : ∀ (xs : List ℚ) (a : ℚ), xs.foldl min a ≤ a := by
  intro xs
  induction xs with
  | nil => intro a; simp
  | cons b t ih =>
      intro a
      simp only [List.foldl_cons]
      exact le_trans (ih (min a b)) (min_le_left a b)

theorem foldl_min_le_mem : ∀ (xs : List ℚ) (a x : ℚ), x ∈ xs → xs.foldl min a ≤ x := by
  intro xs
  induction xs with
  | nil => intro a x hx; simp at hx
  | cons b t ih =>
      intro a x hx
      simp only [List.foldl_cons]
      rcases List.mem_cons.mp hx with rfl | hx
      · exact le_trans (foldl_min_le_init t (min a x)) (min_le_right a x)
      · exact ih (min a b) x hx

theorem foldl_min_mem : ∀ (xs : List ℚ) (a : ℚ), xs.foldl min a ∈ a :: xs := by
  intro xs
  induction xs with
  | nil => intro a; simp
  | cons b t ih =>
      intro a
      simp only [List.foldl_cons]
      rcases List.mem_cons.mp (ih (min a b)) with h | h
      · rw [h]
        rcases min_choice a b with hm | hm <;> rw [hm]
        · exact List.mem_cons_self _ _
        · exact List.mem_cons_of_mem _ (List.mem_cons_self _ _)
      · exact List.mem_cons_of_mem _ (List.mem_cons_of_mem _ h)

theorem le_listMax (l : List ℚ) (x : ℚ) (hx : x ∈ l) : x ≤ listMax l := by
  cases l with
  | nil => simp at hx
  | cons a t =>
      rcases List.mem_cons.mp hx with rfl | hx
      · exact init_le_foldl_max t x
      · exact mem_le_foldl_max t a x hx

theorem listMin_le (l : List ℚ) (x : ℚ) (hx : x ∈ l) : listMin l ≤ x := by
  cases l with
  | nil => simp at hx
  | cons a t =>
      rcases List.mem_cons.mp hx with rfl | hx
      · exact foldl_min_le_init t x
      · exact foldl_min_le_mem t a x hx

theorem listMax_mem (l : List ℚ) (hl : l ≠ []) : listMax l ∈ l := by
  cases l with
  | nil => exact absurd rfl hl
  | cons a t => exact foldl_max_mem t a

theorem listMin_mem (l : List ℚ) (hl : l ≠ []) : listMin l ∈ l := by
  cases l with
  | nil => exact absurd rfl hl
  | cons a t => exact foldl_min_mem t a

/-- "max minus min below q" is the same as "every pair lies within q". -/
theorem span_lt_iff (R : List ℚ) (hR : R ≠ []) (q : ℚ) :
    listMax R - listMin R < q ↔ ∀ x ∈ R, ∀ y ∈ R, x - y < q := by
  constructor
  · intro h x hx y hy
    have h1 := le_listMax R x hx
    have h2 := listMin_le R y hy
    linarith
  · intro h
    exact h _ (listMax_mem R hR) _ (listMin_mem R hR)

theorem sum_map_sub_sq (l : List ℚ) (m : ℚ) :
    (l.map (fun x => (x - m) ^ 2)).sum =
      (l.map (fun x => x ^ 2)).sum - 2 * m * l.sum + (l.length : ℚ) * m ^ 2 := by
  induction l with
  | nil => simp
  | cons a t ih =>
      simp only [List.map_cons, List.sum_cons, List.length_cons, ih]
      push_cast
      ring

/-- The population variance of the source equals the spec's second-moment
formula. -/
theorem variance_second_moment (l : List ℚ) (hl : 2 ≤ l.length) :
    calculate_variance l =
      (l.map (fun x => x ^ 2)).sum / (l.length : ℚ) - (l.sum / (l.length : ℚ)) ^ 2 := by
  have hn : (l.length : ℚ) ≠ 0 := Nat.cast_ne_zero.mpr (by omega)
  simp only [calculate_variance]
  rw [if_neg (by omega), sum_map_sub_sq]
  field_simp
  ring

/-- The source's max-min consistency band agrees with the spec's "all four
recent values within 0.20 m of each other". -/
theorem is_consistent_iff (h : List ℚ) (c : ℚ) (hl : 3 ≤ h.length) :
    (is_consistent_obstacle h c = true) ↔
      ∀ x ∈ takeLastN h 3 ++ [c], ∀ y ∈ takeLastN h 3 ++ [c], x - y < 0.2 := by
  simp only [is_consistent_obstacle]
  rw [if_neg (by omega), decide_eq_true_eq]
  exact span_lt_iff _ (by simp) _

/-- The per-sensor filter body of the source equals the spec-side filter. -/
theorem snow_filter_body_eq_spec (hb : List (String × List ℚ)) (s : String) (c : Option ℚ) :
    snow_filter_body hb s c = specFilterOne ((lookupA hb s).getD []) c := by
  cases c with
  | none => rfl
  | some c =>
      simp only [snow_filter_body, specFilterOne]
      by_cases hl : ((lookupA hb s).getD []).length < 3
      · rw [if_pos hl, if_pos hl]
      · rw [if_neg hl, if_neg hl]
        have h3 : 3 ≤ ((lookupA hb s).getD []).length := by omega
        have h2 : 2 ≤ ((lookupA hb s).getD []).length := by omega
        rw [variance_second_moment _ h2, if_pos h2]
        simp only [is_consistent_iff _ c h3]

/-- C5: the noise filter passes everything through unchanged when disabled;
when enabled it maps each sensor's reading through exactly the spec's
per-sensor rule: pass when absent or history shorter than 3; when the
population variance exceeds 0.4 or the last-step change exceeds 0.5, pass
exactly when the 3 most recent history entries plus the current reading span
less than 0.20 m, else suppress to "no reading"; otherwise pass. -/
theorem c5_noise_filter :
    (∀ (r : List (String × Option ℚ)) (hb : List (String × List ℚ)),
        filter_snow_particles false r hb = r) ∧
    (∀ (r : List (String × Option ℚ)) (hb : List (String × List ℚ)),
        filter_snow_particles true r hb =
          r.map (fun p => (p.1, specFilterOne ((lookupA hb p.1).getD []) p.2))) := by
  constructor
  · intro r hb
    simp [filter_snow_particles]
  · intro r hb
    simp [filter_snow_particles, snow_filter_body_eq_spec]

/-- Any drop-off depth above 0.15 lands in one of the four deeper description
buckets of `_classify_drop`, never in "Small depression". -/
theorem classify_drop_buckets (d : ℚ) (hd : 0.15 < d) :
    classify_drop d ≠ "Small depression" ∧
      (classify_drop d = "Pothole detected" ∨ classify_drop d = "Curb or step down" ∨
        classify_drop d = "Large drop-off" ∨
        classify_drop d = "Stairs or major drop - DANGER") := by
  simp only [classify_drop]
  rw [if_neg (not_lt.mpr (le_of_lt hd))]
  by_cases k1 : d < (0.20 : ℚ)
  · simp [k1]
  · by_cases k2 : d < (0.30 : ℚ)
    · simp [k1, k2]
    · by_cases k3 : d < (0.50 : ℚ)
      · simp [k1, k2, k3]
      · simp [k1, k2, k3]

/-- C8: ground-hazard classification agrees with the claim's case split
(`None` when uncalibrated or absent; deviation above 0.30 critical drop-off;
in (0.15, 0.30] warning drop-off; below -0.10 warning raised surface of
height `|deviation|`; `0.05 < |deviation|` otherwise info slope; else
`None`), and the claim's three examples at baseline 1.00 evaluate as stated. -/
theorem c8_ground_classification :
    (∀ (st : GDState) (c : Option ℚ),
        hazardView (detect_hazard st c) =
          specClassify st.calibrated st.baseline_distance c) ∧
    hazardView (detect_hazard ⟨[], some 1, true⟩ (some 1.35)) =
      some ("drop_off", "critical", 0.35) ∧
    hazardView (detect_hazard ⟨[], some 1, true⟩ (some 1.20)) =
      some ("drop_off", "warning", 0.20) ∧
    hazardView (detect_hazard ⟨[], some 1, true⟩ (some 0.85)) =
      some ("raised_surface", "warning", 0.15) := by
  refine ⟨?_, ?_, ?_, ?_⟩
  · intro st c
    obtain ⟨rs, b, cal⟩ := st
    cases cal
    · simp [detect_hazard, specClassify, hazardView]
    · cases c with
      | none => simp [detect_hazard, specClassify, hazardView]
      | some c =>
          simp only [detect_hazard, specClassify, POTHOLE_THRESHOLD, MAJOR_DROP_THRESHOLD,
            CURB_THRESHOLD]
          by_cases h1 : (0.30 : ℚ) < c - b.getD 0
          · have h2 : (0.15 : ℚ) < c - b.getD 0 := by linarith
            simp [h1, h2, hazardView]
          · by_cases h2 : (0.15 : ℚ) < c - b.getD 0
            · simp [h1, h2, hazardView]
            · by_cases h3 : c - b.getD 0 < -(0.10 : ℚ)
              · simp [h1, h2, h3, hazardView]
              · by_cases h4 : (0.05 : ℚ) < |c - b.getD 0|
                · simp [h1, h2, h3, h4, hazardView]
                · simp [h1, h2, h3, h4, hazardView]
  · norm_num [detect_hazard, hazardView, classify_drop, POTHOLE_THRESHOLD,
      MAJOR_DROP_THRESHOLD, CURB_THRESHOLD]
  · norm_num [detect_hazard, hazardView, classify_drop, POTHOLE_THRESHOLD,
      MAJOR_DROP_THRESHOLD, CURB_THRESHOLD]
  · norm_num [detect_hazard, hazardView, classify_rise, POTHOLE_THRESHOLD,
      MAJOR_DROP_THRESHOLD, CURB_THRESHOLD]

/-- C10: every drop-off hazard the classifier returns has depth strictly
above 0.15, so the sub-0.15 description bucket ("Small depression") of
`_classify_drop` is unreachable: the description is always one of the four
deeper buckets. -/
theorem c10_dropoff_depth_buckets : ∀ (st : GDState) (c : Option ℚ) (d : ℚ) (sev desc : String),
    detect_hazard st c = some (.drop_off d sev desc) →
    0.15 < d ∧ desc ≠ "Small depression" ∧
      (desc = "Pothole detected" ∨ desc = "Curb or step down" ∨
        desc = "Large drop-off" ∨ desc = "Stairs or major drop - DANGER") := by
  intro st c d sev desc h
  obtain ⟨rs, b, cal⟩ := st
  cases cal
  · simp [detect_hazard] at h
  · cases c with
    | none => simp [detect_hazard] at h
    | some c =>
        simp only [detect_hazard, POTHOLE_THRESHOLD, MAJOR_DROP_THRESHOLD,
          CURB_THRESHOLD] at h
        split_ifs at h with hT h1 h2 h3 h4
        · simp only [Option.some.injEq, Hazard.drop_off.injEq] at h
          obtain ⟨hd, _, hdesc⟩ := h
          subst hd
          refine ⟨h1, ?_, ?_⟩
          · rw [← hdesc]
            exact (classify_drop_buckets _ h1).1
          · rw [← hdesc]
            exact (classify_drop_buckets _ h1).2
        · simp only [Option.some.injEq, Hazard.drop_off.injEq] at h
          obtain ⟨hd, _, hdesc⟩ := h
          subst hd
          refine ⟨h1, ?_, ?_⟩
          · rw [← hdesc]
            exact (classify_drop_buckets _ h1).1
          · rw [← hdesc]
            exact (classify_drop_buckets _ h1).2
        · simp at h
        · simp at h

/-- C10 witness: baseline 1.00, reading 1.18 yields a drop-off of depth 0.18
described as a pothole. -/
theorem c10_dropoff_depth_buckets_witness :
    (0.15 : ℚ) < 9/50 ∧ "Pothole detected" ≠ "Small depression" ∧
      ("Pothole detected" = "Pothole detected" ∨ "Pothole detected" = "Curb or step down" ∨
        "Pothole detected" = "Large drop-off" ∨
        "Pothole detected" = "Stairs or major drop - DANGER") :=
  c10_dropoff_depth_buckets ⟨[], some 1, true⟩ (some (59/50)) (9/50) "warning" "Pothole detected"
    (by norm_num [detect_hazard, classify_drop, POTHOLE_THRESHOLD, MAJOR_DROP_THRESHOLD,
      CURB_THRESHOLD])

/-- Folding readings through `calibrate` appends until the 50th sample, which
triggers the one-shot trimmed-mean computation. -/
theorem calibrate_fold : ∀ (rs : List ℚ) (pre : List ℚ),
    pre.length + rs.length = 50 → rs ≠ [] →
    rs.foldl (fun st r => calibrate st (some r)) ⟨pre, none, false⟩ =
      ⟨pre ++ rs, some (trimmedMeanSpec (pre ++ rs)), true⟩ := by
  intro rs
  induction rs with
  | nil => intro pre h hne; exact absurd rfl hne
  | cons r t ih =>
      intro pre hlen hne
      simp only [List.foldl_cons]
      by_cases ht : t = []
      · subst ht
        simp only [List.foldl_nil]
        have hl : (pre ++ [r]).length = 50 := by simp at hlen ⊢; omega
        simp only [calibrate]
        rw [if_pos (by rw [hl]; simp [GROUND_CALIBRATION_SAMPLES])]
        simp [trimmedMeanSpec, trimmedMiddle]
      · have hlt : ¬ (GROUND_CALIBRATION_SAMPLES ≤ (pre ++ [r]).length) := by
          have h0 : 0 < t.length := List.length_pos.mpr ht
          simp only [List.length_cons] at hlen
          simp [GROUND_CALIBRATION_SAMPLES]
          omega
        have hstep : calibrate ⟨pre, none, false⟩ (some r) =
            ⟨pre ++ [r], none, false⟩ := by
          simp only [calibrate]
          rw [if_neg hlt]
        rw [hstep]
        have := ih (pre ++ [r]) (by simp at hlen ⊢; omega) ht
        rw [this]
        simp

/-- Sorting a constant list is the identity. -/
theorem sortQ_replicate_one : ∀ n : Nat, sortQ (List.replicate n (1:ℚ)) = List.replicate n 1 := by
  intro n
  induction n with
  | zero => rfl
  | succ k ih =>
      rw [List.replicate_succ]
      simp only [sortQ, List.insertionSort] at ih ⊢
      rw [ih]
      cases k with
      | zero => rfl
      | succ m =>
          rw [List.replicate_succ]
          simp [List.orderedInsert]

/-- C7: on exactly the 50th accumulated sample, calibration sorts, trims
`floor(50/10) = 5` samples from each end and sets the baseline to the mean of
the middle 40.  Fifty constant samples of 1.00 give baseline exactly 1.00
(the trimmed middle being 40 copies of 1.00); for the 50 uniformly spread
samples 0.01..0.50 the trimmed middle is exactly 0.06..0.45 — every averaged
value lies strictly between 0.05 and 0.46, so the 5 lowest and 5 highest
samples are excluded from the mean (51/200 = 0.255). -/
theorem c7_trimmed_calibration :
    (∀ samples : List ℚ, samples.length = 50 →
        runCalibration samples = ⟨samples, some (trimmedMeanSpec samples), true⟩) ∧
    (runCalibration (List.replicate 50 1)).baseline_distance = some 1 ∧
    trimmedMiddle (List.replicate 50 1) = List.replicate 40 1 ∧
    (runCalibration uniformSamples).baseline_distance = some (51/200) ∧
    trimmedMiddle uniformSamples = mLit ∧
    (∀ x ∈ mLit, (1/20 : ℚ) < x ∧ x < 23/50) := by
  have hgen : ∀ samples : List ℚ, samples.length = 50 →
      runCalibration samples = ⟨samples, some (trimmedMeanSpec samples), true⟩ := by
    intro samples hl
    have hne : samples ≠ [] := by
      intro h
      rw [h] at hl
      simp at hl
    have := calibrate_fold samples [] (by simpa using hl) hne
    simpa [runCalibration, GDState.init] using this
  have hmid1 : trimmedMiddle (List.replicate 50 (1:ℚ)) = List.replicate 40 1 := by
    simp only [trimmedMiddle]
    rw [show sortQ (List.replicate 50 (1:ℚ)) = List.replicate 50 1 from sortQ_replicate_one 50]
    simp [List.drop_replicate, List.take_replicate]
  have hcm : trimmedMeanSpec (List.replicate 50 (1:ℚ)) = 1 := by
    rw [trimmedMeanSpec, hmid1, List.sum_replicate]
    norm_num
  have huL : uniformSamples = uLit := by
    norm_num [uniformSamples, uLit, List.range_succ]
  have hsort : sortQ uLit = uLit := by
    norm_num [sortQ, uLit, List.insertionSort, List.orderedInsert]
  have hmid2 : trimmedMiddle uniformSamples = mLit := by
    rw [huL]
    simp only [trimmedMiddle, hsort]
    norm_num [uLit, mLit]
  have hum : trimmedMeanSpec uniformSamples = 51/200 := by
    rw [trimmedMeanSpec, hmid2]
    norm_num [mLit]
  refine ⟨hgen, ?_, hmid1, ?_, hmid2, ?_⟩
  · rw [hgen _ (by simp)]
    show some (trimmedMeanSpec (List.replicate 50 1)) = some 1
    rw [hcm]
  · rw [hgen _ (by rw [huL]; rfl)]
    show some (trimmedMeanSpec uniformSamples) = some (51/200)
    rw [hum]
  · intro x hx
    simp only [mLit] at hx
    fin_cases hx <;> norm_num

/-- C7 witness: the constant 50-sample run triggers the trimmed-mean
calibration. -/
theorem c7_trimmed_calibration_witness :
    runCalibration (List.replicate 50 1) =
      ⟨List.replicate 50 1, some (trimmedMeanSpec (List.replicate 50 1)), true⟩ :=
  c7_trimmed_calibration.1 (List.replicate 50 1) (by simp)
